import Mathlib

/-!
Verification development for the VulkanSetup repository (`src/MainClean.cpp`,
with `src/unnamed/part_000` a near-duplicate of the same program).

The program is a minimal Vulkan "hello triangle": `run()` calls `initWindow`,
`initVulkan`, `mainLoop`, `cleanup` in sequence.  We give a shallow embedding
of the parts of the program the claims are about:

* `resolveExtent` — the surface-extent resolution logic (MainClean.cpp:288-314);
* `deviceCmds` / `recordCommands` — the command sequence recorded each frame
  (MainClean.cpp:599-694);
* `initVulkanRun` — the setup sequence of `initVulkan` with its early-return
  error handling, parameterised by an environment saying which external
  operations succeed (MainClean.cpp:78-586);
* `bodyEvents` / `mainLoopTrace` / `cleanupTrace` — an instrumented event
  trace of `mainLoop` and `cleanup`, parameterised by an environment giving
  the window-close signal, the image index returned by each acquire, which
  recording/submission steps fail, and whether each present call reports a
  failure (MainClean.cpp:588-760).

Machine integers are modelled as `Nat`; the only place a machine-width bound
matters is the `UINT32_MAX` sentinel in extent resolution, written explicitly
as `2 ^ 32 - 1`.
-/

namespace VulkanSetup

/-- Width/height pair (`VkExtent2D`), components in pixels. -/
structure Extent2D where
  width : Nat
  height : Nat
deriving DecidableEq, Repr

/-- The fields of `VkSurfaceCapabilitiesKHR` that the program reads when
resolving the surface extent (MainClean.cpp:302-314). -/
structure SurfaceCaps where
  currentExtent : Extent2D
  minImageExtent : Extent2D
  maxImageExtent : Extent2D
deriving DecidableEq, Repr

/-- The sentinel value `std::numeric_limits<uint32_t>::max()`. -/
def UINT32_MAX : Nat := 2 ^ 32 - 1

/-- `std::clamp(x, lo, hi)` on `uint32_t` (well-defined for `lo ≤ hi`). -/
def clampNat (x lo hi : Nat) : Nat := max lo (min x hi)

/-- Surface-extent resolution, transliterated from MainClean.cpp:288-314:
`extent` starts as `capabilities.currentExtent`; only when
`currentExtent.width` equals the `uint32_t` sentinel is the framebuffer size
queried and clamped into `[minImageExtent, maxImageExtent]`. -/
def resolveExtent (caps : SurfaceCaps) (fbWidth fbHeight : Nat) : Extent2D :=
  if caps.currentExtent.width = UINT32_MAX then
    { width := clampNat fbWidth caps.minImageExtent.width caps.maxImageExtent.width,
      height := clampNat fbHeight caps.minImageExtent.height caps.maxImageExtent.height }
  else
    caps.currentExtent

/-- Image layouts used by the program. -/
inductive Layout
  | undefined
  | colorAttachmentOptimal
  | attachmentOptimal
  | presentSrc
deriving DecidableEq, Repr

/-- Pipeline stages used by the program. -/
inductive Stage
  | topOfPipe
  | colorAttachmentOutput
  | bottomOfPipe
deriving DecidableEq, Repr

/-- Access masks used by the program (`0` and `VK_ACCESS_COLOR_ATTACHMENT_WRITE_BIT`). -/
inductive Access
  | accessNone
  | colorAttachmentWrite
deriving DecidableEq, Repr

/-- Attachment load operations. -/
inductive LoadOp
  | clear
  | load
deriving DecidableEq, Repr

/-- Attachment store operations. -/
inductive StoreOp
  | store
  | dontCare
deriving DecidableEq, Repr

/-- An RGBA clear value; the program uses `{0.0f, 0.0f, 0.0f, 1.0f}`, whose
components are exact small integers. -/
structure ClearColor where
  r : Nat
  g : Nat
  b : Nat
  a : Nat
deriving DecidableEq, Repr

/-- One operation of the per-frame recording section (MainClean.cpp:599-694).
Swapchain images and their views are identified by their index into
`swapChainImages` / `swapChainImageViews`. -/
inductive RecCmd
  | resetCommandBuffer
  | beginCommandBuffer
  | pipelineBarrier (srcStage dstStage : Stage) (oldLayout newLayout : Layout)
      (srcAccess dstAccess : Access) (image : Nat)
  | beginRendering (view : Nat) (layout : Layout) (loadOp : LoadOp) (storeOp : StoreOp)
      (clear : ClearColor) (areaOffsetX areaOffsetY : Nat) (area : Extent2D)
  | bindPipeline
  | setViewport (x y w h minDepth maxDepth : Nat)
  | setScissor (offX offY : Nat) (area : Extent2D)
  | draw (vertexCount instanceCount firstVertex firstInstance : Nat)
  | endRendering
  | endCommandBuffer
deriving DecidableEq, Repr

/-- The device commands recorded between `vkBeginCommandBuffer` and
`vkEndCommandBuffer` each frame, transliterated in order from
MainClean.cpp:611-689.  `extent` is the surface extent fixed at setup
(the viewport is `(0,0,extent.width,extent.height,0,1)` and the scissor is
`((0,0), extent)`, both set from fields initialised at MainClean.cpp:445-453);
`imageIndex` is the index returned by `vkAcquireNextImageKHR`. -/
def deviceCmds (extent : Extent2D) (imageIndex : Nat) : List RecCmd :=
  [ .pipelineBarrier .topOfPipe .colorAttachmentOutput .undefined .colorAttachmentOptimal
      .accessNone .colorAttachmentWrite imageIndex,
    .beginRendering imageIndex .attachmentOptimal .clear .store ⟨0, 0, 0, 1⟩ 0 0 extent,
    .bindPipeline,
    .setViewport 0 0 extent.width extent.height 0 1,
    .setScissor 0 0 extent,
    .draw 3 1 0 0,
    .endRendering,
    .pipelineBarrier .colorAttachmentOutput .bottomOfPipe .colorAttachmentOptimal .presentSrc
      .colorAttachmentWrite .accessNone imageIndex ]

/-- The full per-frame recording sequence for `(slot, imageIndex)`:
`vkResetCommandBuffer`, `vkBeginCommandBuffer`, the recorded device commands,
`vkEndCommandBuffer` (MainClean.cpp:599-694). -/
def recordCommands (extent : Extent2D) (imageIndex : Nat) : List RecCmd :=
  .resetCommandBuffer :: .beginCommandBuffer :: (deviceCmds extent imageIndex ++ [.endCommandBuffer])

/-- The swapchain-image indices referenced by a recorded command: the image of
each layout barrier, and the image view attached to the rendering scope. -/
def imageRefs : RecCmd → List Nat
  | .pipelineBarrier _ _ _ _ _ _ image => [image]
  | .beginRendering view _ _ _ _ _ _ _ => [view]
  | _ => []

/-! ## Setup (`initVulkan`, MainClean.cpp:78-586)

`initVulkan` is straight-line code that reports each failure to `std::cerr`
and early-returns.  We model it as a function from an environment (which
external operations succeed; the state of the two compiled shader files) to
the list of operations it performs plus a flag saying whether it ran to
completion.  Failed API calls are recorded as the attempted operation
followed by a `reportError` event carrying the failure that was printed. -/

/-- State of a compiled shader file on disk: `std::ifstream::is_open` fails
exactly when the file is missing; a present-but-empty file opens fine and
yields a zero-length byte buffer (MainClean.cpp:378-393). -/
inductive ShaderFile
  | missing
  | present (size : Nat)
deriving DecidableEq, Repr

/-- The byte count read from a shader file (`tellg` with `ios::ate`). -/
def shaderSize : ShaderFile → Nat
  | .missing => 0
  | .present n => n

/-- The failure messages `initVulkan` can print before early-returning,
one per `std::cerr` report site. -/
inductive SetupErr
  | instanceCreation
  | surfaceCreation
  | noVulkanGpu
  | deviceCreation
  | swapchainSupport
  | swapchainCreation
  | imageViewCreation
  | vertexShaderRead
  | fragmentShaderLoad
  | vertexModuleCreation
  | fragmentModuleCreation
  | pipelineLayoutCreation
  | pipelineCreation
  | commandPoolCreation
  | commandBufferAllocation
  | syncObjectCreation
deriving DecidableEq, Repr

/-- Operations performed by `initVulkan`, in program order. -/
inductive SetupEv
  | createInstance
  | createSurface
  | createDevice
  | createSwapchain
  | getSwapchainImages
  | createImageView (i : Nat)
  | runShaderCompileScript (i : Nat)
  | openVertexShaderFile (i : Nat)
  | openFragmentShaderFile (i : Nat)
  | createVertexShaderModule (i codeSize : Nat)
  | createFragmentShaderModule (i codeSize : Nat)
  | createPipelineLayout (i : Nat)
  | createPipeline (i : Nat)
  | destroyShaderModules (i : Nat)
  | createCommandPool (i : Nat)
  | allocateCommandBuffers (i : Nat)
  | createSyncObjects (i slot : Nat)
  | reportError (e : SetupErr)
deriving DecidableEq, Repr

/-- Environment for setup: which external operations succeed, the state of the
two shader files, the number of swapchain images reported by
`vkGetSwapchainImagesKHR`, and the slot count (`MAX_FRAMES_IN_FLIGHT`, 2 in
the program). -/
structure SetupEnv where
  instanceOk : Bool
  surfaceOk : Bool
  deviceFound : Bool
  deviceOk : Bool
  formatsAvailable : Bool
  presentModesAvailable : Bool
  swapchainOk : Bool
  imageViewOk : Bool
  vsFile : ShaderFile
  fsFile : ShaderFile
  vsModuleOk : Bool
  fsModuleOk : Bool
  layoutOk : Bool
  pipelineOk : Bool
  poolOk : Bool
  allocOk : Bool
  syncOk : Bool
  numImages : Nat
  slotCount : Nat
deriving Repr

/-- One iteration of the per-swapchain-image loop (MainClean.cpp:355-583).
NOTE: the loop body contains not only the image-view creation but also the
shader-compile step, shader loading, shader-module/pipeline-layout/pipeline
creation, command pool/buffer creation and the semaphore/fence creation loop
— all of these run once per swapchain image. -/
def perImage (env : SetupEnv) (i : Nat) : List SetupEv × Bool :=
  let e0 : List SetupEv := [.createImageView i]
  if !env.imageViewOk then (e0 ++ [.reportError .imageViewCreation], false) else
  let e1 := e0 ++ [.runShaderCompileScript i, .openVertexShaderFile i]
  if env.vsFile = .missing then (e1 ++ [.reportError .vertexShaderRead], false) else
  let e2 := e1 ++ [.openFragmentShaderFile i]
  if env.fsFile = .missing then (e2 ++ [.reportError .fragmentShaderLoad], false) else
  let e3 := e2 ++ [.createVertexShaderModule i (shaderSize env.vsFile)]
  if !env.vsModuleOk then (e3 ++ [.reportError .vertexModuleCreation], false) else
  let e4 := e3 ++ [.createFragmentShaderModule i (shaderSize env.fsFile)]
  if !env.fsModuleOk then (e4 ++ [.reportError .fragmentModuleCreation], false) else
  let e5 := e4 ++ [.createPipelineLayout i]
  if !env.layoutOk then (e5 ++ [.reportError .pipelineLayoutCreation], false) else
  let e6 := e5 ++ [.createPipeline i]
  if !env.pipelineOk then (e6 ++ [.reportError .pipelineCreation], false) else
  let e7 := e6 ++ [.destroyShaderModules i, .createCommandPool i]
  if !env.poolOk then (e7 ++ [.reportError .commandPoolCreation], false) else
  let e8 := e7 ++ [.allocateCommandBuffers i]
  if !env.allocOk then (e8 ++ [.reportError .commandBufferAllocation], false) else
  if !env.syncOk then
    (e8 ++ [.createSyncObjects i 0, .reportError .syncObjectCreation], false)
  else
    (e8 ++ (List.range env.slotCount).map (.createSyncObjects i), true)

/-- The per-image loop over the given image indices, stopping at the first
failing iteration (the failing iteration early-returns from `initVulkan`). -/
def imageLoopAux (env : SetupEnv) : List Nat → List SetupEv × Bool
  | [] => ([], true)
  | i :: rest =>
      let r := perImage env i
      if r.2 then
        let r2 := imageLoopAux env rest
        (r.1 ++ r2.1, r2.2)
      else
        (r.1, false)

/-- `for (size_t i = 0; i < swapChainImages.size(); i++) { ... }`. -/
def imageLoop (env : SetupEnv) : List SetupEv × Bool :=
  imageLoopAux env (List.range env.numImages)

/-- The whole of `initVulkan` (MainClean.cpp:78-586): the operations it
performs in order, and whether it ran to completion.  Enumeration/query calls
that cannot early-return are not recorded as events. -/
def initVulkanRun (env : SetupEnv) : List SetupEv × Bool :=
  let e0 : List SetupEv := [.createInstance]
  if !env.instanceOk then (e0 ++ [.reportError .instanceCreation], false) else
  let e1 := e0 ++ [.createSurface]
  if !env.surfaceOk then (e1 ++ [.reportError .surfaceCreation], false) else
  if !env.deviceFound then (e1 ++ [.reportError .noVulkanGpu], false) else
  let e2 := e1 ++ [.createDevice]
  if !env.deviceOk then (e2 ++ [.reportError .deviceCreation], false) else
  if !env.formatsAvailable || !env.presentModesAvailable then
    (e2 ++ [.reportError .swapchainSupport], false) else
  let e3 := e2 ++ [.createSwapchain]
  if !env.swapchainOk then (e3 ++ [.reportError .swapchainCreation], false) else
  let e4 := e3 ++ [.getSwapchainImages]
  let r := imageLoop env
  (e4 ++ r.1, r.2)

/-- The four phases `run()` calls (MainClean.cpp:63-68).  `initVulkan` returns
`void`; `run` inspects nothing, so all four phases execute unconditionally,
regardless of whether setup failed. -/
inductive Phase
  | initWindow
  | initVulkanPhase
  | mainLoopPhase
  | cleanupPhase
deriving DecidableEq, Repr

/-- `run()`: the phases executed, in order, independent of any setup result. -/
def runPhases : List Phase :=
  [.initWindow, .initVulkanPhase, .mainLoopPhase, .cleanupPhase]

/-! ## The frame loop (`mainLoop`, MainClean.cpp:588-735) and `cleanup`
(MainClean.cpp:737-760)

`mainLoop` iterates: `vkWaitForFences` / `vkResetFences` on the current
slot's fence, `vkAcquireNextImageKHR` signalling the slot's image-available
semaphore, `vkResetCommandBuffer` / `vkBeginCommandBuffer`, the recorded
device commands of `deviceCmds`, `vkEndCommandBuffer`, `vkQueueSubmit`
(waiting on the image-available semaphore at the color-attachment-output
stage, signalling the render-finished semaphore, with the slot's fence),
`vkQueuePresentKHR` (waiting on the render-finished semaphore; its result is
discarded by the program), then `currentFrame = (currentFrame + 1) %
MAX_FRAMES_IN_FLIGHT` and `glfwPollEvents`.  `vkBeginCommandBuffer`,
`vkEndCommandBuffer` and `vkQueueSubmit` failures early-return from
`mainLoop`, skipping the `vkDeviceWaitIdle` at MainClean.cpp:734; the normal
exit (window close) reaches it.  `cleanup` begins with `vkDeviceWaitIdle`
and then destroys every resource.

We instrument each iteration with its frame number `f` (0-based count of
loop iterations); the slot is `f % SLOT_COUNT`.  Iteration `f` is driven by
an environment giving: the window-close signal observed at the top of
iteration `f`, the image index `vkAcquireNextImageKHR` returns, which (if
any) of the three checked calls fails, and whether `vkQueuePresentKHR`
reports a failure — the last is deliberately never read by the trace
builder, because the program discards the result of `vkQueuePresentKHR`
(MainClean.cpp:727). -/

/-- Which checked call of the loop body fails at a given iteration. -/
inductive StepFail
  | noFail
  | beginCmdFail
  | endCmdFail
  | submitFail
deriving DecidableEq, Repr

/-- The per-slot binary semaphores. -/
inductive Sem
  | imageAvailable (slot : Nat)
  | renderFinished (slot : Nat)
deriving DecidableEq, Repr

/-- Resources destroyed by `cleanup`, in its order. -/
inductive Res
  | imageAvailableSemaphore (slot : Nat)
  | renderFinishedSemaphore (slot : Nat)
  | fenceRes (slot : Nat)
  | commandPoolRes
  | pipelineRes
  | pipelineLayoutRes
  | imageViewRes (i : Nat)
  | swapchainRes
  | deviceRes
  | surfaceRes
  | instanceRes
  | windowRes
deriving DecidableEq, Repr

/-- Events of the loop/cleanup trace.  `frame` is the iteration number,
`slot` the frame slot `frame % SLOT_COUNT`. -/
inductive LoopEv
  | fenceWait (frame slot : Nat)
  | fenceReset (frame slot : Nat)
  | acquire (frame slot : Nat) (signalSem : Sem) (imageIndex : Nat)
  | resetCmdBuf (frame slot : Nat)
  | beginCmdBuf (frame slot : Nat)
  | cmd (frame slot : Nat) (c : RecCmd)
  | endCmdBuf (frame slot : Nat)
  | submit (frame slot : Nat) (waitSem : Sem) (waitStage : Stage) (signalSem : Sem)
      (fenceSlot : Nat)
  | present (frame : Nat) (imageIndex : Nat) (waitSem : Sem)
  | advance (frame newSlot : Nat)
  | pollEvents (frame : Nat)
  | deviceWaitIdle
  | destroy (r : Res)
deriving DecidableEq, Repr

/-- Environment driving the loop. -/
structure LoopEnv where
  shouldClose : Nat → Bool
  acquiredImage : Nat → Nat
  failAt : Nat → StepFail
  extent : Extent2D
  presentFails : Nat → Bool

/-- The events of loop iteration `f` (the body of the `while` at
MainClean.cpp:592-732) and whether the body ran to completion (`false` means
an early `return` from `mainLoop`). -/
def bodyEvents (SC : Nat) (env : LoopEnv) (f : Nat) : List LoopEv × Bool :=
  let slot := f % SC
  let img := env.acquiredImage f
  let pre : List LoopEv :=
    [.fenceWait f slot, .fenceReset f slot, .acquire f slot (.imageAvailable slot) img,
     .resetCmdBuf f slot, .beginCmdBuf f slot]
  if env.failAt f = .beginCmdFail then (pre, false) else
  let recd := pre ++ (deviceCmds env.extent img).map (.cmd f slot) ++ [.endCmdBuf f slot]
  if env.failAt f = .endCmdFail then (recd, false) else
  let sub := recd ++
    [.submit f slot (.imageAvailable slot) .colorAttachmentOutput (.renderFinished slot) slot]
  if env.failAt f = .submitFail then (sub, false) else
  (sub ++ [.present f img (.renderFinished slot), .advance f ((f + 1) % SC), .pollEvents f],
   true)

/-- The events of loop iteration `f` (first component of `bodyEvents`). -/
def frameChunk (SC : Nat) (env : LoopEnv) (f : Nat) : List LoopEv :=
  (bodyEvents SC env f).1

/-- The `while (!glfwWindowShouldClose(window))` loop starting at iteration
`f`, with `fuel` bounding the number of iterations considered.  A normal
exit (close signal observed) performs the `vkDeviceWaitIdle` at
MainClean.cpp:734; an early `return` does not. -/
def mainLoopAux (SC : Nat) (env : LoopEnv) : Nat → Nat → List LoopEv
  | 0, _ => []
  | fuel + 1, f =>
      if env.shouldClose f then [.deviceWaitIdle]
      else
        let r := bodyEvents SC env f
        r.1 ++ if r.2 then mainLoopAux SC env fuel (f + 1) else []

/-- The event trace of `mainLoop` (iterations from frame 0). -/
def mainLoopTrace (SC : Nat) (env : LoopEnv) (fuel : Nat) : List LoopEv :=
  mainLoopAux SC env fuel 0

/-- The event trace of `cleanup` (MainClean.cpp:737-760): `vkDeviceWaitIdle`
first, then every destruction. -/
def cleanupTrace (SC numImageViews : Nat) : List LoopEv :=
  .deviceWaitIdle ::
    (((List.range SC).flatMap fun i =>
      [.destroy (.imageAvailableSemaphore i), .destroy (.renderFinishedSemaphore i),
       .destroy (.fenceRes i)]) ++
    [.destroy .commandPoolRes, .destroy .pipelineRes, .destroy .pipelineLayoutRes] ++
    (List.range numImageViews).map (fun i => .destroy (.imageViewRes i)) ++
    [.destroy .swapchainRes, .destroy .deviceRes, .destroy .surfaceRes,
     .destroy .instanceRes, .destroy .windowRes])

/-- The trace of `mainLoop` followed by `cleanup`, as `run()` executes them. -/
def loopThenCleanupTrace (SC : Nat) (env : LoopEnv) (fuel numImageViews : Nat) :
    List LoopEv :=
  mainLoopTrace SC env fuel ++ cleanupTrace SC numImageViews

/-- The slot used by each acquire, in trace order. -/
def slotsUsed (tr : List LoopEv) : List Nat :=
  tr.filterMap fun e =>
    match e with
    | .acquire _ slot _ _ => some slot
    | _ => none

/-- The fence a trace event touches, if any: the fence waited on, reset, or
handed to `vkQueueSubmit` as completion marker. -/
def fenceSlotOf : LoopEv → Option Nat
  | .fenceWait _ slot => some slot
  | .fenceReset _ slot => some slot
  | .submit _ _ _ _ _ fenceSlot => some fenceSlot
  | _ => none

/-- Whether an event is a queue submission. -/
def isSubmit : LoopEv → Bool
  | .submit _ _ _ _ _ _ => true
  | _ => false

/-- Whether an event destroys a resource. -/
def isDestroy : LoopEv → Bool
  | .destroy _ => true
  | _ => false

/-- The swapchain-image indices a loop event refers to. -/
def imagesOfEv : LoopEv → List Nat
  | .acquire _ _ _ imageIndex => [imageIndex]
  | .cmd _ _ c => imageRefs c
  | .present _ imageIndex _ => [imageIndex]
  | _ => []

/-! ## Claim-side definitions and concrete environments -/

/-- The event list of a loop iteration that runs to completion, written out
in the order the specification describes the iteration: fence wait, fence
reset, acquire (signalling the slot's image-acquired semaphore), command
recording (reset, begin, the device commands, end), submit (waiting on
image-acquired at the color-attachment-output stage, signalling
rendering-finished, fence as completion marker), present (waiting on
rendering-finished), slot advance, event poll. -/
def fullChunk (SC : Nat) (env : LoopEnv) (f : Nat) : List LoopEv :=
  [.fenceWait f (f % SC), .fenceReset f (f % SC),
   .acquire f (f % SC) (.imageAvailable (f % SC)) (env.acquiredImage f),
   .resetCmdBuf f (f % SC), .beginCmdBuf f (f % SC)] ++
  (deviceCmds env.extent (env.acquiredImage f)).map (.cmd f (f % SC)) ++
  [.endCmdBuf f (f % SC),
   .submit f (f % SC) (.imageAvailable (f % SC)) .colorAttachmentOutput
     (.renderFinished (f % SC)) (f % SC),
   .present f (env.acquiredImage f) (.renderFinished (f % SC)),
   .advance f ((f + 1) % SC), .pollEvents f]

/-- The recording sequence exactly as claim C3 words it: reset; barrier to
color-attachment-writable; rendering scope with clear-to-opaque-black and
store; bind pipeline, set viewport and scissor to the full extent; draw 3
vertices 1 instance; end the scope; barrier to ready-for-presentation; seal.
(The claim's wording has no step between the reset and the first barrier.) -/
def claimedRecordSequence (extent : Extent2D) (imageIndex : Nat) : List RecCmd :=
  [ .resetCommandBuffer,
    .pipelineBarrier .topOfPipe .colorAttachmentOutput .undefined .colorAttachmentOptimal
      .accessNone .colorAttachmentWrite imageIndex,
    .beginRendering imageIndex .attachmentOptimal .clear .store ⟨0, 0, 0, 1⟩ 0 0 extent,
    .bindPipeline,
    .setViewport 0 0 extent.width extent.height 0 1,
    .setScissor 0 0 extent,
    .draw 3 1 0 0,
    .endRendering,
    .pipelineBarrier .colorAttachmentOutput .bottomOfPipe .colorAttachmentOptimal .presentSrc
      .colorAttachmentWrite .accessNone imageIndex,
    .endCommandBuffer ]

/-- Claim C3's sequence amended with the one step the code additionally
performs: opening the command buffer for recording (`vkBeginCommandBuffer`)
between the reset and the first barrier. -/
def claimedRecordSequenceAmended (extent : Extent2D) (imageIndex : Nat) : List RecCmd :=
  [ .resetCommandBuffer,
    .beginCommandBuffer,
    .pipelineBarrier .topOfPipe .colorAttachmentOutput .undefined .colorAttachmentOptimal
      .accessNone .colorAttachmentWrite imageIndex,
    .beginRendering imageIndex .attachmentOptimal .clear .store ⟨0, 0, 0, 1⟩ 0 0 extent,
    .bindPipeline,
    .setViewport 0 0 extent.width extent.height 0 1,
    .setScissor 0 0 extent,
    .draw 3 1 0 0,
    .endRendering,
    .pipelineBarrier .colorAttachmentOutput .bottomOfPipe .colorAttachmentOptimal .presentSrc
      .colorAttachmentWrite .accessNone imageIndex,
    .endCommandBuffer ]

/-- Number of `vkCreateGraphicsPipelines` calls in a setup trace. -/
def countPipelineCreates (t : List SetupEv) : Nat :=
  t.countP fun e => match e with | .createPipeline _ => true | _ => false

/-- Number of `vkCreatePipelineLayout` calls in a setup trace. -/
def countPipelineLayoutCreates (t : List SetupEv) : Nat :=
  t.countP fun e => match e with | .createPipelineLayout _ => true | _ => false

/-- Number of semaphore-pair/fence creations (one per slot per pass through
the semaphore/fence creation loop) in a setup trace. -/
def countSyncObjectCreates (t : List SetupEv) : Nat :=
  t.countP fun e => match e with | .createSyncObjects _ _ => true | _ => false

/-- A loop environment with no failures: the window-close signal is observed
at the start of iteration 3 (so exactly three iterations complete), each
acquire returns image `f % 2`, and the extent is the program's 1080x720. -/
def cleanLoopEnv : LoopEnv :=
  { shouldClose := fun f => Nat.ble 3 f
    acquiredImage := fun f => f % 2
    failAt := fun _ => .noFail
    extent := ⟨1080, 720⟩
    presentFails := fun _ => false }

/-- Like `cleanLoopEnv`, but the presentation engine reports a failure
(e.g. surface invalidated) at the present call of iteration 0. -/
def presentFailEnv : LoopEnv :=
  { cleanLoopEnv with presentFails := fun f => f == 0 }

/-- A setup environment in which every external operation succeeds, with the
program's constants: the swapchain reports 2 images and
`MAX_FRAMES_IN_FLIGHT = 2`. -/
def okSetupEnv : SetupEnv :=
  { instanceOk := true, surfaceOk := true, deviceFound := true, deviceOk := true
    formatsAvailable := true, presentModesAvailable := true, swapchainOk := true
    imageViewOk := true, vsFile := .present 1504, fsFile := .present 572
    vsModuleOk := true, fsModuleOk := true, layoutOk := true, pipelineOk := true
    poolOk := true, allocOk := true, syncOk := true, numImages := 2, slotCount := 2 }

/-- Setup environment where `vkCreateInstance` fails. -/
def instanceFailSetupEnv : SetupEnv :=
  { okSetupEnv with instanceOk := false }

/-- Setup environment where the compiled vertex shader file is missing. -/
def vsMissingSetupEnv : SetupEnv :=
  { okSetupEnv with vsFile := .missing }

/-- Setup environment where the compiled vertex shader file is present but
empty. -/
def vsEmptySetupEnv : SetupEnv :=
  { okSetupEnv with vsFile := .present 0 }

/-- Surface capabilities with a fixed (non-sentinel) `currentExtent` that
lies outside `[minImageExtent, maxImageExtent]`. -/
def nonSentinelCaps : SurfaceCaps :=
  { currentExtent := ⟨5000, 5000⟩
    minImageExtent := ⟨1, 1⟩
    maxImageExtent := ⟨4000, 4000⟩ }

/-- Surface capabilities reporting the undefined-extent sentinel. -/
def sentinelCaps : SurfaceCaps :=
  { currentExtent := ⟨2 ^ 32 - 1, 500⟩
    minImageExtent := ⟨200, 200⟩
    maxImageExtent := ⟨4000, 4000⟩ }

/-! ## Helper lemmas -/

/-- An iteration with no failing call produces exactly the full event list. -/
theorem frameChunk_eq_full (SC : Nat) (env : LoopEnv) (f : Nat)
    (h : env.failAt f = .noFail) : frameChunk SC env f = fullChunk SC env f := by
  simp [frameChunk, bodyEvents, fullChunk, h]

/-- An iteration with no failing call runs to completion. -/
theorem bodyEvents_ok (SC : Nat) (env : LoopEnv) (f : Nat)
    (h : env.failAt f = .noFail) : (bodyEvents SC env f).2 = true := by
  simp [bodyEvents, h]

/-- Whatever calls fail, the events an iteration emits form an initial
segment of the full event list (the body early-returns, it never reorders). -/
theorem fullChunk_eq_frameChunk_append (SC : Nat) (env : LoopEnv) (f : Nat) :
    ∃ t, fullChunk SC env f = frameChunk SC env f ++ t := by
  rcases hf : env.failAt f with _ | _ | _ | _ <;>
    simp [frameChunk, bodyEvents, fullChunk, hf]

/-- Events of an iteration are events of the full list. -/
theorem mem_fullChunk_of_mem_frameChunk (SC : Nat) (env : LoopEnv) (f : Nat)
    (e : LoopEv) (he : e ∈ frameChunk SC env f) : e ∈ fullChunk SC env f := by
  obtain ⟨t, ht⟩ := fullChunk_eq_frameChunk_append SC env f
  rw [ht]
  exact List.mem_append_left _ he

/-- Every fence an iteration touches (waits on, resets, or hands to
`vkQueueSubmit`) is the iteration's own slot `f % SC`. -/
theorem fenceSlotOf_fullChunk (SC : Nat) (env : LoopEnv) (f : Nat) :
    ∀ e ∈ fullChunk SC env f, ∀ s, fenceSlotOf e = some s → s = f % SC := by
  intro e he s hs
  simp only [fullChunk, List.mem_append, List.mem_cons, List.mem_map,
    List.not_mem_nil, or_false] at he
  rcases he with ((rfl | rfl | rfl | rfl | rfl) | ⟨c, hc, rfl⟩) |
    (rfl | rfl | rfl | rfl | rfl) <;> simp [fenceSlotOf] at hs <;> omega

/-- No loop-iteration event destroys a resource. -/
theorem isDestroy_fullChunk (SC : Nat) (env : LoopEnv) (f : Nat) :
    ∀ e ∈ fullChunk SC env f, isDestroy e = false := by
  intro e he
  simp only [fullChunk, List.mem_append, List.mem_cons, List.mem_map,
    List.not_mem_nil, or_false] at he
  rcases he with ((rfl | rfl | rfl | rfl | rfl) | ⟨c, hc, rfl⟩) |
    (rfl | rfl | rfl | rfl | rfl) <;> simp [isDestroy]

/-- The loop itself never destroys a resource (destruction happens only in
`cleanup`). -/
theorem isDestroy_mainLoopAux (SC : Nat) (env : LoopEnv) :
    ∀ fuel f0 e, e ∈ mainLoopAux SC env fuel f0 → isDestroy e = false := by
  intro fuel
  induction fuel with
  | zero => intro f0 e he; simp [mainLoopAux] at he
  | succ m ih =>
    intro f0 e he
    rw [mainLoopAux] at he
    by_cases hc : env.shouldClose f0 = true
    · rw [if_pos hc] at he
      simp at he
      subst he
      simp [isDestroy]
    · rw [if_neg hc] at he
      rcases List.mem_append.mp he with h1 | h2
      · exact isDestroy_fullChunk SC env f0 e (mem_fullChunk_of_mem_frameChunk SC env f0 e h1)
      · by_cases hb : (bodyEvents SC env f0).2 = true
        · rw [if_pos hb] at h2
          exact ih (f0 + 1) e h2
        · rw [if_neg hb] at h2
          simp at h2

/-- `cleanup` is `vkDeviceWaitIdle` followed only by destructions — in
particular it performs no submission after the drain. -/
theorem cleanupTrace_shape (SC n : Nat) :
    ∃ B, cleanupTrace SC n = .deviceWaitIdle :: B ∧ ∀ e ∈ B, isSubmit e = false := by
  refine ⟨_, rfl, ?_⟩
  intro e he
  simp only [List.mem_append, List.mem_cons, List.mem_flatMap, List.mem_map,
    List.not_mem_nil, or_false] at he
  rcases he with ((⟨i, hi, (rfl | rfl | rfl)⟩ | rfl | rfl | rfl) | ⟨i, hi, rfl⟩) |
    (rfl | rfl | rfl | rfl | rfl) <;> simp [isSubmit]

/-- Two distinct frames less than one slot-cycle apart occupy distinct
slots. -/
theorem slot_ne_between (SC k f : Nat) (h1 : k < f) (h2 : f < k + SC) :
    f % SC ≠ k % SC := by
  intro h
  have hm : Nat.ModEq SC k f := h.symm
  have hd : SC ∣ f - k := (Nat.modEq_iff_dvd' (le_of_lt h1)).mp hm
  have := Nat.le_of_dvd (by omega) hd
  omega

/-- Unrolling the loop: while the close signal stays low and every body runs
to completion, the trace is the concatenation of the per-iteration chunks
followed by the rest of the loop. -/
theorem mainLoopAux_decomp (SC : Nat) (env : LoopEnv) :
    ∀ (n fuel f0 : Nat),
      (∀ f, f0 ≤ f → f < f0 + n →
        env.shouldClose f = false ∧ (bodyEvents SC env f).2 = true) →
      n ≤ fuel →
      mainLoopAux SC env fuel f0 =
        (List.range' f0 n).flatMap (frameChunk SC env) ++
          mainLoopAux SC env (fuel - n) (f0 + n) := by
  intro n
  induction n with
  | zero => intro fuel f0 _ _; simp
  | succ m ih =>
    intro fuel f0 h hle
    obtain ⟨fuel', rfl⟩ : ∃ fuel', fuel = fuel' + 1 := ⟨fuel - 1, by omega⟩
    obtain ⟨hc0, hb0⟩ := h f0 le_rfl (by omega)
    rw [mainLoopAux, if_neg (by simp [hc0])]
    show frameChunk SC env f0 ++
        (if (bodyEvents SC env f0).2 = true then mainLoopAux SC env fuel' (f0 + 1) else []) = _
    rw [if_pos hb0,
      ih fuel' (f0 + 1) (fun f hf1 hf2 => h f (by omega) (by omega)) (by omega),
      List.range'_succ, List.flatMap_cons, List.append_assoc]
    have e1 : fuel' + 1 - (m + 1) = fuel' - m := by omega
    have e2 : f0 + (m + 1) = f0 + 1 + m := by omega
    rw [e1, e2]

/-- Every swapchain-image index mentioned by the recorded device commands is
the acquired image index itself. -/
theorem imageRefs_deviceCmds (extent : Extent2D) (img : Nat) :
    ∀ c ∈ deviceCmds extent img, ∀ i ∈ imageRefs c, i = img := by
  intro c hc i hi
  simp only [deviceCmds, List.mem_cons, List.not_mem_nil, or_false] at hc
  rcases hc with rfl | rfl | rfl | rfl | rfl | rfl | rfl | rfl <;>
    simp [imageRefs] at hi <;> omega

/-! ## Claims -/

/-- Claim C1 (invariant): for every `SLOT_COUNT = SC' + 1 ≥ 1` and every
frame `k`, the loop never resets or re-records a slot's command buffer
before that slot's fence from the prior cycle has been observed signaled:
in a run reaching frame `k + SLOT_COUNT`, (1) the trace decomposes into the
chunks of frames `0..k-1`, frame `k`, frames `k+1..k+SLOT_COUNT-1`, frame
`k + SLOT_COUNT`, and a remainder, in that order; (2) frame `k` submits
with fence `k % SLOT_COUNT` as completion marker; (3) no frame strictly
between `k` and `k + SLOT_COUNT` waits on, resets, or submits with that
fence; and (4) frame `k + SLOT_COUNT` opens with the host wait on that very
fence, followed by the fence reset, the acquire, and only then the
command-buffer reset and recording.  Hence the only signal the wait at
frame `k + SLOT_COUNT` can observe is the completion of frame `k`'s
submission, and the re-recording starts strictly after that wait returns. -/
theorem c1_fence_wait_before_rerecord (SC' k fuel : Nat) (env : LoopEnv)
    (hclose : ∀ f, f ≤ k + SC' + 1 → env.shouldClose f = false)
    (hfail : ∀ f, f ≤ k + SC' + 1 → env.failAt f = StepFail.noFail)
    (hfuel : k + SC' + 2 ≤ fuel) :
    (mainLoopTrace (SC' + 1) env fuel =
      (List.range' 0 k).flatMap (frameChunk (SC' + 1) env) ++
      frameChunk (SC' + 1) env k ++
      (List.range' (k + 1) SC').flatMap (frameChunk (SC' + 1) env) ++
      frameChunk (SC' + 1) env (k + SC' + 1) ++
      mainLoopAux (SC' + 1) env (fuel - (k + SC' + 2)) (k + SC' + 2)) ∧
    LoopEv.submit k (k % (SC' + 1)) (.imageAvailable (k % (SC' + 1)))
        .colorAttachmentOutput (.renderFinished (k % (SC' + 1))) (k % (SC' + 1))
      ∈ frameChunk (SC' + 1) env k ∧
    (∀ f, k < f → f < k + SC' + 1 →
      ∀ e ∈ frameChunk (SC' + 1) env f, fenceSlotOf e ≠ some (k % (SC' + 1))) ∧
    (∃ t, frameChunk (SC' + 1) env (k + SC' + 1) =
      .fenceWait (k + SC' + 1) (k % (SC' + 1)) ::
      .fenceReset (k + SC' + 1) (k % (SC' + 1)) ::
      .acquire (k + SC' + 1) (k % (SC' + 1)) (.imageAvailable (k % (SC' + 1)))
        (env.acquiredImage (k + SC' + 1)) ::
      .resetCmdBuf (k + SC' + 1) (k % (SC' + 1)) ::
      .beginCmdBuf (k + SC' + 1) (k % (SC' + 1)) :: t) := by
  have hmod : (k + SC' + 1) % (SC' + 1) = k % (SC' + 1) := by
    have h : k + SC' + 1 = k + (SC' + 1) := by omega
    rw [h, Nat.add_mod_right]
  refine ⟨?_, ?_, ?_, ?_⟩
  · rw [mainLoopTrace,
      mainLoopAux_decomp (SC' + 1) env k fuel 0
        (fun f hf1 hf2 =>
          ⟨hclose f (by omega), bodyEvents_ok _ env f (hfail f (by omega))⟩)
        (by omega)]
    simp only [Nat.zero_add]
    rw [mainLoopAux_decomp (SC' + 1) env 1 (fuel - k) k
        (fun f hf1 hf2 =>
          ⟨hclose f (by omega), bodyEvents_ok _ env f (hfail f (by omega))⟩)
        (by omega)]
    rw [mainLoopAux_decomp (SC' + 1) env SC' (fuel - k - 1) (k + 1)
        (fun f hf1 hf2 =>
          ⟨hclose f (by omega), bodyEvents_ok _ env f (hfail f (by omega))⟩)
        (by omega)]
    rw [mainLoopAux_decomp (SC' + 1) env 1 (fuel - k - 1 - SC') (k + 1 + SC')
        (fun f hf1 hf2 =>
          ⟨hclose f (by omega), bodyEvents_ok _ env f (hfail f (by omega))⟩)
        (by omega)]
    have e1 : fuel - k - 1 - SC' - 1 = fuel - (k + SC' + 2) := by omega
    have e2 : k + 1 + SC' + 1 = k + SC' + 2 := by omega
    have e3 : k + 1 + SC' = k + SC' + 1 := by omega
    rw [e1, e2, e3]
    simp only [List.range'_one, List.flatMap_cons, List.flatMap_nil,
      List.append_nil, List.append_assoc]
  · rw [frameChunk_eq_full (SC' + 1) env k (hfail k (by omega))]
    simp [fullChunk]
  · intro f hf1 hf2 e he hc
    have hs := fenceSlotOf_fullChunk (SC' + 1) env f e
      (mem_fullChunk_of_mem_frameChunk (SC' + 1) env f e he) (k % (SC' + 1)) hc
    exact slot_ne_between (SC' + 1) k f hf1 (by omega) hs.symm
  · rw [frameChunk_eq_full (SC' + 1) env (k + SC' + 1) (hfail _ le_rfl)]
    refine ⟨(deviceCmds env.extent (env.acquiredImage (k + SC' + 1))).map
        (LoopEv.cmd (k + SC' + 1) (k % (SC' + 1))) ++
      [.endCmdBuf (k + SC' + 1) (k % (SC' + 1)),
       .submit (k + SC' + 1) (k % (SC' + 1)) (.imageAvailable (k % (SC' + 1)))
         .colorAttachmentOutput (.renderFinished (k % (SC' + 1))) (k % (SC' + 1)),
       .present (k + SC' + 1) (env.acquiredImage (k + SC' + 1))
         (.renderFinished (k % (SC' + 1))),
       .advance (k + SC' + 1) ((k + SC' + 1 + 1) % (SC' + 1)),
       .pollEvents (k + SC' + 1)], ?_⟩
    simp only [fullChunk, hmod]
    rfl

/-- Witness for C1 at `SLOT_COUNT = 2`, frame `k = 0`, with the concrete
no-failure environment. -/
theorem c1_fence_wait_before_rerecord_witness :
    (∀ f, f ≤ 0 + 1 + 1 → cleanLoopEnv.shouldClose f = false) ∧
    (∀ f, f ≤ 0 + 1 + 1 → cleanLoopEnv.failAt f = StepFail.noFail) ∧
    0 + 1 + 2 ≤ 16 ∧
    ((mainLoopTrace (1 + 1) cleanLoopEnv 16 =
      (List.range' 0 0).flatMap (frameChunk (1 + 1) cleanLoopEnv) ++
      frameChunk (1 + 1) cleanLoopEnv 0 ++
      (List.range' (0 + 1) 1).flatMap (frameChunk (1 + 1) cleanLoopEnv) ++
      frameChunk (1 + 1) cleanLoopEnv (0 + 1 + 1) ++
      mainLoopAux (1 + 1) cleanLoopEnv (16 - (0 + 1 + 2)) (0 + 1 + 2)) ∧
    LoopEv.submit 0 (0 % (1 + 1)) (.imageAvailable (0 % (1 + 1)))
        .colorAttachmentOutput (.renderFinished (0 % (1 + 1))) (0 % (1 + 1))
      ∈ frameChunk (1 + 1) cleanLoopEnv 0 ∧
    (∀ f, 0 < f → f < 0 + 1 + 1 →
      ∀ e ∈ frameChunk (1 + 1) cleanLoopEnv f, fenceSlotOf e ≠ some (0 % (1 + 1))) ∧
    (∃ t, frameChunk (1 + 1) cleanLoopEnv (0 + 1 + 1) =
      .fenceWait (0 + 1 + 1) (0 % (1 + 1)) ::
      .fenceReset (0 + 1 + 1) (0 % (1 + 1)) ::
      .acquire (0 + 1 + 1) (0 % (1 + 1)) (.imageAvailable (0 % (1 + 1)))
        (cleanLoopEnv.acquiredImage (0 + 1 + 1)) ::
      .resetCmdBuf (0 + 1 + 1) (0 % (1 + 1)) ::
      .beginCmdBuf (0 + 1 + 1) (0 % (1 + 1)) :: t)) :=
  ⟨by decide, by decide, by decide,
   c1_fence_wait_before_rerecord 1 0 16 cleanLoopEnv (by decide) (by decide) (by decide)⟩

/-- Claim C2 (functional_correctness): every completed loop iteration
performs, in this order: fence wait, fence reset, image acquire signalling
the slot's image-acquired semaphore, command recording (buffer reset, begin,
the device commands, end), queue submit waiting on the image-acquired
semaphore at the color-attachment-output stage, signalling the
rendering-finished semaphore, with the slot's fence as completion marker,
present waiting on the rendering-finished semaphore, then slot advance to
`(f + 1) % SLOT_COUNT`; and with `SLOT_COUNT = 2`, the slot sequence over
three completed iterations is `0, 1, 0`. -/
theorem c2_iteration_order (SC' : Nat) (env : LoopEnv) (f : Nat)
    (h : env.failAt f = .noFail) :
    frameChunk (SC' + 1) env f = fullChunk (SC' + 1) env f ∧
    slotsUsed (mainLoopTrace 2 cleanLoopEnv 16) = [0, 1, 0] :=
  ⟨frameChunk_eq_full (SC' + 1) env f h, by decide⟩

/-- Witness for C2: a concrete no-failure iteration at slot count 2. -/
theorem c2_iteration_order_witness :
    cleanLoopEnv.failAt 0 = .noFail ∧
    (frameChunk 2 cleanLoopEnv 0 = fullChunk 2 cleanLoopEnv 0 ∧
     slotsUsed (mainLoopTrace 2 cleanLoopEnv 16) = [0, 1, 0]) :=
  ⟨rfl, c2_iteration_order 1 cleanLoopEnv 0 rfl⟩

/-- Counterexample for claim C3: the recorded sequence is not exactly the
ten steps the claim lists — the code opens the command buffer
(`vkBeginCommandBuffer`, MainClean.cpp:606) between the reset and the first
barrier, a step absent from the claim's enumeration. -/
theorem c3_counterexample :
    recordCommands ⟨1080, 720⟩ 0 ≠ claimedRecordSequence ⟨1080, 720⟩ 0 := by
  decide

/-- Claim C3 as amended: the recorded command sequence for any extent and
image index is exactly the claim's sequence with begin-command-buffer
inserted between the reset and the first barrier. -/
theorem c3_record_sequence (extent : Extent2D) (imageIndex : Nat) :
    recordCommands extent imageIndex = claimedRecordSequenceAmended extent imageIndex :=
  rfl

/-- Claim C4 (code bug): with the program's constants (2 swapchain images,
`MAX_FRAMES_IN_FLIGHT = 2`) a fully successful setup creates the graphics
pipeline and pipeline layout twice (once per swapchain image, the first
creation leaked) and runs the semaphore/fence creation loop twice, creating
4 sync-object triples instead of the claimed single up-front allocation of
`SLOT_COUNT` primitives. -/
theorem c4_per_image_recreation :
    countPipelineCreates (initVulkanRun okSetupEnv).1 = 2 ∧
    countPipelineLayoutCreates (initVulkanRun okSetupEnv).1 = 2 ∧
    countSyncObjectCreates (initVulkanRun okSetupEnv).1 = 4 ∧
    ¬ countPipelineCreates (initVulkanRun okSetupEnv).1 = 1 ∧
    ¬ countSyncObjectCreates (initVulkanRun okSetupEnv).1 = okSetupEnv.slotCount := by
  decide

/-- Claim C5 (code bug): when `vkCreateInstance` fails, `initVulkan` reports
the failure and abandons setup, but `run()` still executes the frame-loop
phase (and cleanup) afterwards — the failure does not abort the run before
the loop. -/
theorem c5_failed_setup_still_enters_loop :
    (initVulkanRun instanceFailSetupEnv).2 = false ∧
    (initVulkanRun instanceFailSetupEnv).1 =
      [.createInstance, .reportError .instanceCreation] ∧
    runPhases = [.initWindow, .initVulkanPhase, .mainLoopPhase, .cleanupPhase] ∧
    Phase.mainLoopPhase ∈ runPhases := by
  decide

/-- Counterexample for claim C6: for a non-sentinel `currentExtent` lying
outside `[minImageExtent, maxImageExtent]`, the resolved extent equals
`currentExtent` unclamped — it is not clamped into the claimed range. -/
theorem c6_counterexample :
    resolveExtent nonSentinelCaps 100 100 = nonSentinelCaps.currentExtent ∧
    ¬ (resolveExtent nonSentinelCaps 100 100).width ≤ nonSentinelCaps.maxImageExtent.width := by
  decide

/-- Claim C6 as amended: when the platform reports the sentinel undefined
extent (`currentExtent.width = UINT32_MAX`), the resolved extent is the
framebuffer size clamped componentwise into `[minImageExtent,
maxImageExtent]` (and hence lies in that range); otherwise the resolved
extent equals the platform-reported `currentExtent`, with no clamping
applied. -/
theorem c6_extent_resolution (caps : SurfaceCaps) (fbWidth fbHeight : Nat)
    (hW : caps.minImageExtent.width ≤ caps.maxImageExtent.width)
    (hH : caps.minImageExtent.height ≤ caps.maxImageExtent.height) :
    (caps.currentExtent.width = UINT32_MAX →
      resolveExtent caps fbWidth fbHeight =
        ⟨clampNat fbWidth caps.minImageExtent.width caps.maxImageExtent.width,
         clampNat fbHeight caps.minImageExtent.height caps.maxImageExtent.height⟩ ∧
      caps.minImageExtent.width ≤ (resolveExtent caps fbWidth fbHeight).width ∧
      (resolveExtent caps fbWidth fbHeight).width ≤ caps.maxImageExtent.width ∧
      caps.minImageExtent.height ≤ (resolveExtent caps fbWidth fbHeight).height ∧
      (resolveExtent caps fbWidth fbHeight).height ≤ caps.maxImageExtent.height) ∧
    (caps.currentExtent.width ≠ UINT32_MAX →
      resolveExtent caps fbWidth fbHeight = caps.currentExtent) := by
  refine ⟨fun hcur => ?_, fun hcur => ?_⟩
  · rw [resolveExtent, if_pos hcur]
    refine ⟨rfl, ?_, ?_, ?_, ?_⟩ <;> simp [clampNat] <;> omega
  · rw [resolveExtent, if_neg hcur]

/-- Witness for C6's amended theorem at concrete sentinel capabilities. -/
theorem c6_extent_resolution_witness :
    sentinelCaps.minImageExtent.width ≤ sentinelCaps.maxImageExtent.width ∧
    sentinelCaps.minImageExtent.height ≤ sentinelCaps.maxImageExtent.height ∧
    ((sentinelCaps.currentExtent.width = UINT32_MAX →
      resolveExtent sentinelCaps 5000 50 =
        ⟨clampNat 5000 sentinelCaps.minImageExtent.width sentinelCaps.maxImageExtent.width,
         clampNat 50 sentinelCaps.minImageExtent.height sentinelCaps.maxImageExtent.height⟩ ∧
      sentinelCaps.minImageExtent.width ≤ (resolveExtent sentinelCaps 5000 50).width ∧
      (resolveExtent sentinelCaps 5000 50).width ≤ sentinelCaps.maxImageExtent.width ∧
      sentinelCaps.minImageExtent.height ≤ (resolveExtent sentinelCaps 5000 50).height ∧
      (resolveExtent sentinelCaps 5000 50).height ≤ sentinelCaps.maxImageExtent.height) ∧
    (sentinelCaps.currentExtent.width ≠ UINT32_MAX →
      resolveExtent sentinelCaps 5000 50 = sentinelCaps.currentExtent)) :=
  ⟨by decide, by decide, c6_extent_resolution sentinelCaps 5000 50 (by decide) (by decide)⟩

/-- Counterexample for claim C7: with the vertex shader file missing, the
shader-load error is reported only after the swapchain and its images (and
the first image view) were created — not before; and with the vertex shader
present but empty, no shader-load error is reported at all (the open check
passes and a zero-byte shader-module creation is attempted instead). -/
theorem c7_counterexample :
    (SetupEv.createSwapchain ∈ (initVulkanRun vsMissingSetupEnv).1.takeWhile
        (fun e => !(e == .reportError .vertexShaderRead)) ∧
     SetupEv.getSwapchainImages ∈ (initVulkanRun vsMissingSetupEnv).1.takeWhile
        (fun e => !(e == .reportError .vertexShaderRead)) ∧
     SetupEv.reportError .vertexShaderRead ∈ (initVulkanRun vsMissingSetupEnv).1) ∧
    ((initVulkanRun vsEmptySetupEnv).1.all
        (fun e => !(e == .reportError .vertexShaderRead) &&
                  !(e == .reportError .fragmentShaderLoad)) = true ∧
     SetupEv.createVertexShaderModule 0 0 ∈ (initVulkanRun vsEmptySetupEnv).1) := by
  decide

/-- Claim C7 as amended: if the compiled vertex shader file is missing (the
open check fails), setup aborts with the shader-load error, but only after
the swapchain, its images and the first image view have been created —
shader loading happens inside the per-image processing loop
(MainClean.cpp:378-381); nothing after the abort (in particular no pipeline)
is created.  An empty-but-present file is not detected by this check. -/
theorem c7_shader_abort (env : SetupEnv)
    (h1 : env.instanceOk = true) (h2 : env.surfaceOk = true)
    (h3 : env.deviceFound = true) (h4 : env.deviceOk = true)
    (h5 : env.formatsAvailable = true) (h6 : env.presentModesAvailable = true)
    (h7 : env.swapchainOk = true) (h8 : env.imageViewOk = true)
    (hv : env.vsFile = .missing) (hn : 0 < env.numImages) :
    (initVulkanRun env).2 = false ∧
    (initVulkanRun env).1 =
      [.createInstance, .createSurface, .createDevice, .createSwapchain,
       .getSwapchainImages, .createImageView 0, .runShaderCompileScript 0,
       .openVertexShaderFile 0, .reportError .vertexShaderRead] := by
  obtain ⟨m, hm⟩ : ∃ m, env.numImages = m + 1 := ⟨env.numImages - 1, by omega⟩
  have hloop : imageLoop env =
      ([.createImageView 0, .runShaderCompileScript 0, .openVertexShaderFile 0,
        .reportError .vertexShaderRead], false) := by
    rw [imageLoop, hm, List.range_succ_eq_map]
    simp [imageLoopAux, perImage, h8, hv]
  constructor <;> simp [initVulkanRun, h1, h2, h3, h4, h5, h6, h7, hloop]

/-- Witness for C7's amended theorem at the concrete missing-file setup. -/
theorem c7_shader_abort_witness :
    vsMissingSetupEnv.instanceOk = true ∧ vsMissingSetupEnv.surfaceOk = true ∧
    vsMissingSetupEnv.deviceFound = true ∧ vsMissingSetupEnv.deviceOk = true ∧
    vsMissingSetupEnv.formatsAvailable = true ∧
    vsMissingSetupEnv.presentModesAvailable = true ∧
    vsMissingSetupEnv.swapchainOk = true ∧ vsMissingSetupEnv.imageViewOk = true ∧
    vsMissingSetupEnv.vsFile = .missing ∧ 0 < vsMissingSetupEnv.numImages ∧
    ((initVulkanRun vsMissingSetupEnv).2 = false ∧
     (initVulkanRun vsMissingSetupEnv).1 =
       [.createInstance, .createSurface, .createDevice, .createSwapchain,
        .getSwapchainImages, .createImageView 0, .runShaderCompileScript 0,
        .openVertexShaderFile 0, .reportError .vertexShaderRead]) :=
  ⟨rfl, rfl, rfl, rfl, rfl, rfl, rfl, rfl, rfl, by decide,
   c7_shader_abort vsMissingSetupEnv rfl rfl rfl rfl rfl rfl rfl rfl rfl (by decide)⟩

/-- Counterexample for claim C8: with the presentation engine reporting a
failure at iteration 0's present, the loop still performs iteration 1's
acquire (with no device drain in between) — the failure is not
loop-terminating and further Acquiring is attempted. -/
theorem c8_counterexample :
    presentFailEnv.presentFails 0 = true ∧
    LoopEv.acquire 1 1 (.imageAvailable 1) 1 ∈
      (mainLoopTrace 2 presentFailEnv 16).dropWhile
        (fun e => !(e == .present 0 0 (.renderFinished 0))) ∧
    LoopEv.deviceWaitIdle ∉
      ((mainLoopTrace 2 presentFailEnv 16).dropWhile
        (fun e => !(e == .present 0 0 (.renderFinished 0)))).takeWhile
        (fun e => !(e == .acquire 1 1 (.imageAvailable 1) 1)) := by
  decide

/-- Claim C8 as amended: the result of `vkQueuePresentKHR` is discarded
(MainClean.cpp:727), so a presentation failure is neither detected nor
loop-terminating — the loop's behaviour (its entire event trace) is
identical whatever failures the presentation engine reports; the loop stops
only for the window-close signal or a begin/end-recording or submit
failure. -/
theorem c8_present_result_ignored (SC fuel f0 : Nat) (sc : Nat → Bool)
    (img : Nat → Nat) (fa : Nat → StepFail) (ext : Extent2D)
    (pf pf' : Nat → Bool) :
    mainLoopAux SC ⟨sc, img, fa, ext, pf⟩ fuel f0 =
      mainLoopAux SC ⟨sc, img, fa, ext, pf'⟩ fuel f0 := by
  induction fuel generalizing f0 with
  | zero => rfl
  | succ m ih =>
    have hb : bodyEvents SC ⟨sc, img, fa, ext, pf'⟩ f0 =
        bodyEvents SC ⟨sc, img, fa, ext, pf⟩ f0 := rfl
    rw [mainLoopAux, mainLoopAux]
    by_cases h : sc f0 = true
    · rw [if_pos h, if_pos h]
    · rw [if_neg h, if_neg h]
      show (bodyEvents SC ⟨sc, img, fa, ext, pf⟩ f0).1 ++ _ =
        (bodyEvents SC ⟨sc, img, fa, ext, pf'⟩ f0).1 ++ _
      rw [hb]
      by_cases h2 : (bodyEvents SC ⟨sc, img, fa, ext, pf⟩ f0).2 = true
      · rw [if_pos h2, if_pos h2, ih]
      · rw [if_neg h2, if_neg h2]

/-- Claim C9 (temporal): however the loop stops — window close, a mid-loop
early return, or even fuel exhaustion of the model — the combined
`mainLoop`-then-`cleanup` trace contains a `vkDeviceWaitIdle` that comes
after every queue submission and before every resource destruction: no
semaphore, fence, command pool, pipeline, pipeline layout, image view,
swapchain, device, surface or instance is destroyed before the device
drain. -/
theorem c9_drain_before_destroy (SC : Nat) (env : LoopEnv)
    (fuel numImageViews : Nat) :
    ∃ A B, loopThenCleanupTrace SC env fuel numImageViews =
        A ++ .deviceWaitIdle :: B ∧
      (∀ e ∈ A, isDestroy e = false) ∧ (∀ e ∈ B, isSubmit e = false) := by
  obtain ⟨B, hB, hBs⟩ := cleanupTrace_shape SC numImageViews
  refine ⟨mainLoopTrace SC env fuel, B, ?_, ?_, hBs⟩
  · rw [loopThenCleanupTrace, hB]
  · intro e he
    exact isDestroy_mainLoopAux SC env fuel 0 e he

/-- Claim C10 (invariant): within a completed iteration the acquired image
index is used consistently — every image index any event of the iteration
refers to (the image of both layout barriers, the view attached to the
rendering scope, the acquired index, the presented index) equals the index
returned by the acquire, and the acquire and present events with that index
do occur. -/
theorem c10_consistent_image_index (SC' : Nat) (env : LoopEnv) (f : Nat)
    (h : env.failAt f = .noFail) :
    (∀ e ∈ frameChunk (SC' + 1) env f, ∀ i ∈ imagesOfEv e,
      i = env.acquiredImage f) ∧
    (LoopEv.acquire f (f % (SC' + 1)) (.imageAvailable (f % (SC' + 1)))
      (env.acquiredImage f) ∈ frameChunk (SC' + 1) env f) ∧
    (LoopEv.present f (env.acquiredImage f) (.renderFinished (f % (SC' + 1)))
      ∈ frameChunk (SC' + 1) env f) ∧
    (deviceCmds env.extent (env.acquiredImage f)).flatMap imageRefs =
      [env.acquiredImage f, env.acquiredImage f, env.acquiredImage f] := by
  rw [frameChunk_eq_full (SC' + 1) env f h]
  refine ⟨?_, ?_, ?_, ?_⟩
  · intro e he i hi
    simp only [fullChunk, List.mem_append, List.mem_cons, List.mem_map,
      List.not_mem_nil, or_false] at he
    rcases he with ((rfl | rfl | rfl | rfl | rfl) | ⟨c, hc, rfl⟩) |
      (rfl | rfl | rfl | rfl | rfl) <;>
      simp only [imagesOfEv, List.mem_singleton, List.not_mem_nil] at hi <;>
      first
        | exact hi
        | exact absurd hi (by simp)
        | exact imageRefs_deviceCmds env.extent (env.acquiredImage f) c hc i hi
  · simp [fullChunk]
  · simp [fullChunk]
  · rfl

/-- Witness for C10 at a concrete no-failure iteration. -/
theorem c10_consistent_image_index_witness :
    cleanLoopEnv.failAt 0 = .noFail ∧
    ((∀ e ∈ frameChunk 2 cleanLoopEnv 0, ∀ i ∈ imagesOfEv e,
       i = cleanLoopEnv.acquiredImage 0) ∧
     (LoopEv.acquire 0 (0 % 2) (.imageAvailable (0 % 2))
       (cleanLoopEnv.acquiredImage 0) ∈ frameChunk 2 cleanLoopEnv 0) ∧
     (LoopEv.present 0 (cleanLoopEnv.acquiredImage 0) (.renderFinished (0 % 2))
       ∈ frameChunk 2 cleanLoopEnv 0) ∧
     (deviceCmds cleanLoopEnv.extent (cleanLoopEnv.acquiredImage 0)).flatMap imageRefs =
       [cleanLoopEnv.acquiredImage 0, cleanLoopEnv.acquiredImage 0,
        cleanLoopEnv.acquiredImage 0]) :=
  ⟨rfl, c10_consistent_image_index 1 cleanLoopEnv 0 rfl⟩

end VulkanSetup
